import Mathlib

/-!
Verification of the blogicum blog application (`blog/models.py`,
`blog/views.py`, `blog/forms.py`, `blog/urls.py`) against its
natural-language specification.

The data model is embedded as plain structures over `Nat` ids and `Int`
timestamps; a database is lists of rows.  Each view handler is embedded
as a pure function from the database and the request inputs to a
response together with the updated database (the successful
form-submission path for mutating views).  Deletion policies declared on
the models (`on_delete=CASCADE` / `SET_NULL`) are embedded as explicit
database transformers.
-/

namespace Blogicum

/-- A user row (`django.contrib.auth` user, referenced by `username`). -/
structure User where
  id : Nat
  username : String
deriving DecidableEq

/-- A row of the `Category` model (`blog/models.py`): `title`,
`description`, unique `slug`, plus the `PublishedModel` fields
`is_published` and `created_at`. -/
structure Category where
  id : Nat
  title : String
  description : String
  slug : String
  is_published : Bool
  created_at : Int
deriving DecidableEq

/-- A row of the `Location` model (`blog/models.py`). -/
structure Location where
  id : Nat
  name : String
  is_published : Bool
  created_at : Int
deriving DecidableEq

/-- A row of the `Post` model (`blog/models.py`): `author` is a
`CASCADE` foreign key to `User`; `location` and `category` are nullable
`SET_NULL` foreign keys. -/
structure Post where
  id : Nat
  title : String
  text : String
  pub_date : Int
  author : Nat
  location : Option Nat
  category : Option Nat
  image : String
  is_published : Bool
  created_at : Int
deriving DecidableEq

/-- A row of the `Comment` model (`blog/models.py`): `post` and `author`
are `CASCADE` foreign keys; `Meta.ordering = ('created_at',)`. -/
structure Comment where
  id : Nat
  text : String
  post : Nat
  created_at : Int
  author : Nat
deriving DecidableEq

/-- The relational database: one list of rows per model. -/
structure DB where
  users : List User
  categories : List Category
  locations : List Location
  posts : List Post
  comments : List Comment
deriving DecidableEq

/-- Primary-key lookup on `Post` (`get_object_or_404(Post, pk=...)` /
`Post.objects.get(pk=...)`). -/
def findPost (db : DB) (pk : Nat) : Option Post :=
  db.posts.find? (fun p => p.id == pk)

/-- Primary-key lookup on `Category`. -/
def findCategory (db : DB) (cid : Nat) : Option Category :=
  db.categories.find? (fun c => c.id == cid)

/-- Primary-key lookup on `Comment` (`get_object_or_404(Comment, pk=...)`). -/
def findComment (db : DB) (cid : Nat) : Option Comment :=
  db.comments.find? (fun c => c.id == cid)

/-- Lookup of a user by username (`get_object_or_404(User, username=...)`). -/
def findUser (db : DB) (username : String) : Option User :=
  db.users.find? (fun u => u.username == username)

/-- The `Count('comment')` annotation: the number of comments on a post. -/
def commentCount (db : DB) (p : Post) : Nat :=
  (db.comments.filter (fun c => c.post == p.id)).length

/-- The join condition `category__is_published=True`: the post has a
category and that category's `is_published` flag is set.  A post with
`category` null is dropped by the inner join. -/
def categoryIsPublished (db : DB) (p : Post) : Bool :=
  match p.category with
  | none => false
  | some cid =>
    match findCategory db cid with
    | none => false
    | some c => c.is_published

/-- The public-visibility invariant, as filtered by `IndexList`:
`is_published=True, category__is_published=True, pub_date__lte=now`. -/
def visible (db : DB) (now : Int) (p : Post) : Bool :=
  p.is_published && categoryIsPublished db p && decide (p.pub_date ≤ now)

/-- Django `Paginator` windowing: page `pg` (1-based) of `per` items. -/
def paginate (per : Nat) (l : List α) (pg : Nat) : List α :=
  (l.drop ((pg - 1) * per)).take per

/-- The ordering `('-pub_date',)` used by `IndexList`. -/
def pubDateDesc (a b : Post) : Prop := b.pub_date ≤ a.pub_date

instance : DecidableRel pubDateDesc :=
  fun a b => Int.decLe b.pub_date a.pub_date

instance : IsTotal Post pubDateDesc :=
  ⟨fun a b => Int.le_total b.pub_date a.pub_date⟩

instance : IsTrans Post pubDateDesc :=
  ⟨fun _ _ _ h1 h2 => le_trans h2 h1⟩

/-- The default ordering `('created_at',)` of `Comment.Meta`. -/
def createdAtAsc (a b : Comment) : Prop := a.created_at ≤ b.created_at

instance : DecidableRel createdAtAsc :=
  fun a b => Int.decLe a.created_at b.created_at

instance : IsTotal Comment createdAtAsc :=
  ⟨fun a b => Int.le_total a.created_at b.created_at⟩

instance : IsTrans Comment createdAtAsc :=
  ⟨fun _ _ _ h1 h2 => le_trans h1 h2⟩

/-- Redirect targets produced by `reverse` / `redirect` in the views. -/
inductive Target where
  | postDetail (pk : Nat)
  | profile (username : String)
deriving DecidableEq

/-- The response of a handler: a 404, a redirect, or a rendered page. -/
inductive Response where
  | notFound
  | redirect (t : Target)
  | rendered
deriving DecidableEq

/-- The user-editable fields of `PostForm` (`blog/forms.py`): all `Post`
fields except `author` and `created_at`. -/
structure PostForm where
  title : String
  text : String
  pub_date : Int
  location : Option Nat
  category : Option Nat
  image : String
  is_published : Bool
deriving DecidableEq

/-- Overwriting a post's form-editable fields from submitted form data. -/
def applyPostForm (p : Post) (f : PostForm) : Post :=
  { p with
    title := f.title, text := f.text, pub_date := f.pub_date,
    location := f.location, category := f.category,
    image := f.image, is_published := f.is_published }

/-- `IndexList.get_queryset` (`blog/views.py`): all posts ordered by
`-pub_date`, annotated with `comment_count`, filtered by
`is_published=True, category__is_published=True, pub_date__lte=now`. -/
def IndexList.get_queryset (db : DB) (now : Int) : List (Post × Nat) :=
  (((List.insertionSort pubDateDesc db.posts).map
      (fun p => (p, commentCount db p))).filter
    (fun pc => visible db now pc.1))

/-- One page of the index listing (`paginate_by = 10`). -/
def IndexList.page (db : DB) (now : Int) (pg : Nat) : List (Post × Nat) :=
  paginate 10 (IndexList.get_queryset db now) pg

/-- `PostCreate.form_valid` + `get_success_url` (`blog/views.py`): the
new post takes its form-editable fields from the submitted form, its
`author` is forced to `request.user`, and the response redirects to the
requester's own profile.  `newId` is the primary key the database
assigns; `now` becomes `created_at` (`auto_now_add`). -/
def PostCreate.form_valid (db : DB) (requester : User) (f : PostForm)
    (newId : Nat) (now : Int) : Response × DB :=
  let p : Post :=
    { id := newId, title := f.title, text := f.text, pub_date := f.pub_date,
      author := requester.id, location := f.location, category := f.category,
      image := f.image, is_published := f.is_published, created_at := now }
  (Response.redirect (Target.profile requester.username),
   { db with posts := db.posts ++ [p] })

/-- `PostDetail.get_object`: plain primary-key lookup with no visibility
filtering (404 only when the pk does not resolve). -/
def PostDetail.get_object (db : DB) (pk : Nat) : Option Post :=
  findPost db pk

/-- The `comments` context of `PostDetail.get_context_data`: the post's
related comments, under the model's default ordering `('created_at',)`. -/
def PostDetail.comments (db : DB) (pk : Nat) : List Comment :=
  List.insertionSort createdAtAsc (db.comments.filter (fun c => c.post == pk))

/-- `PostUpdate.dispatch` followed (on the authorized path) by the valid
form submission of `UpdateView` with `form_valid` re-forcing `author`:
404 when the pk misses, silent redirect to the post's detail page when
the requester is not the author, otherwise the post is updated and the
response redirects to the requester's profile. -/
def PostUpdate.dispatch (db : DB) (requester : User) (pk : Nat)
    (f : PostForm) : Response × DB :=
  match findPost db pk with
  | none => (Response.notFound, db)
  | some inst =>
    if inst.author ≠ requester.id then
      (Response.redirect (Target.postDetail pk), db)
    else
      let p := { applyPostForm inst f with author := requester.id }
      (Response.redirect (Target.profile requester.username),
       { db with posts := db.posts.map (fun q => if q.id == pk then p else q) })

/-- Deletion of a `Post` row and the declared `on_delete=CASCADE` of
`Comment.post` (`blog/models.py`): all comments on the post die with it. -/
def deletePost (db : DB) (pid : Nat) : DB :=
  { db with
    posts := db.posts.filter (fun p => p.id != pid),
    comments := db.comments.filter (fun c => c.post != pid) }

/-- Deletion of a `Location` row and the declared `on_delete=SET_NULL`
of `Post.location`: referencing posts survive with `location` nulled. -/
def deleteLocation (db : DB) (lid : Nat) : DB :=
  { db with
    locations := db.locations.filter (fun l => l.id != lid),
    posts := db.posts.map
      (fun p => if p.location == some lid then { p with location := none } else p) }

/-- Deletion of a `Category` row and the declared `on_delete=SET_NULL`
of `Post.category`: referencing posts survive with `category` nulled. -/
def deleteCategory (db : DB) (cid : Nat) : DB :=
  { db with
    categories := db.categories.filter (fun c => c.id != cid),
    posts := db.posts.map
      (fun p => if p.category == some cid then { p with category := none } else p) }

/-- Deletion of a `User` row with the declared cascades: posts authored
by the user die (`Post.author` CASCADE), comments authored by the user
die (`Comment.author` CASCADE), and comments on the dying posts die
with them (`Comment.post` CASCADE). -/
def deleteUser (db : DB) (uid : Nat) : DB :=
  { db with
    users := db.users.filter (fun u => u.id != uid),
    posts := db.posts.filter (fun p => p.author != uid),
    comments := db.comments.filter
      (fun c => c.author != uid &&
        !(db.posts.any (fun p => p.id == c.post && p.author == uid))) }

/-- `PostDelete.dispatch` followed (on the authorized path) by the
deletion of `DeleteView`: 404 when the pk misses, silent redirect to the
post's detail page when the requester is not the author, otherwise the
post is deleted (cascading to its comments) and the response redirects
to the requester's profile. -/
def PostDelete.dispatch (db : DB) (requester : User) (pk : Nat) :
    Response × DB :=
  match findPost db pk with
  | none => (Response.notFound, db)
  | some inst =>
    if inst.author ≠ requester.id then
      (Response.redirect (Target.postDetail pk), db)
    else
      (Response.redirect (Target.profile requester.username), deletePost db pk)

/-- `CategoryList.get_queryset`: `get_object_or_404(Category,
slug=category_slug, is_published=True)` (`none` models the 404), then
`category.posts.filter(is_published=True, pub_date__lte=now)`. -/
def CategoryList.get_queryset (db : DB) (now : Int) (category_slug : String) :
    Option (List Post) :=
  match db.categories.find? (fun c => c.slug == category_slug && c.is_published) with
  | none => none
  | some category =>
    some ((db.posts.filter (fun p => p.category == some category.id)).filter
      (fun p => p.is_published && decide (p.pub_date ≤ now)))

/-- One page of the category listing (`paginate_by = 10`). -/
def CategoryList.page (db : DB) (now : Int) (category_slug : String)
    (pg : Nat) : Option (List Post) :=
  (CategoryList.get_queryset db now category_slug).map (fun l => paginate 10 l pg)

/-- `ProfileList.get_queryset`: resolve the user by username (404 when
absent); when the requester is the profile owner take
`Post.objects.filter(author=...)`, otherwise take
`super().get_queryset().filter(author=...)` — `ListView`'s base queryset
is `Post.objects.all()` with no ordering and no visibility filter, so
both branches are the author's posts unfiltered; finally annotate with
`comment_count`.  `requester` is `some uid` for an authenticated user
and `none` for the anonymous user. -/
def ProfileList.get_queryset (db : DB) (requester : Option Nat)
    (username : String) : Option (List (Post × Nat)) :=
  match findUser db username with
  | none => none
  | some author =>
    let queryset :=
      if some author.id == requester then
        db.posts.filter (fun p => p.author == author.id)
      else
        db.posts.filter (fun p => p.author == author.id)
    some (queryset.map (fun p => (p, commentCount db p)))

/-- `CommentUpdate.dispatch` followed (on the authorized path) by the
valid form submission of `UpdateView`: the comment is resolved by the
`id` URL kwarg alone (404 when it misses); a non-author is silently
redirected to the detail page of the `pk` URL kwarg before the post is
ever looked up; only then is the post of the URL resolved (404 when it
misses), the comment's `text` updated, and the response redirected to
`post_data.pk`'s detail page. -/
def CommentUpdate.dispatch (db : DB) (requester : User) (pk : Nat)
    (id : Nat) (newText : String) : Response × DB :=
  match findComment db id with
  | none => (Response.notFound, db)
  | some c =>
    if c.author ≠ requester.id then
      (Response.redirect (Target.postDetail pk), db)
    else
      match findPost db pk with
      | none => (Response.notFound, db)
      | some post_data =>
        (Response.redirect (Target.postDetail post_data.id),
         { db with comments := (db.comments.map
            (fun cc => if cc.id == id then { cc with text := newText } else cc)) })

/-- `CommentDelete.dispatch` followed (on the authorized path) by the
deletion of `DeleteView`: same resolution order as `CommentUpdate`, the
comment is deleted by its `id` alone, and the success redirect targets
`self.object.post.pk` — the comment's own post, not the URL's `pk`. -/
def CommentDelete.dispatch (db : DB) (requester : User) (pk : Nat)
    (id : Nat) : Response × DB :=
  match findComment db id with
  | none => (Response.notFound, db)
  | some c =>
    if c.author ≠ requester.id then
      (Response.redirect (Target.postDetail pk), db)
    else
      match findPost db pk with
      | none => (Response.notFound, db)
      | some _post_data =>
        (Response.redirect (Target.postDetail c.post),
         { db with comments := db.comments.filter (fun cc => cc.id != id) })

/-- Key uniqueness of the database: primary keys, usernames and category
slugs are pairwise distinct (the relational `unique` constraints). -/
def DB.wf (db : DB) : Prop :=
  (db.users.map User.id).Nodup ∧ (db.users.map User.username).Nodup ∧
  (db.categories.map Category.id).Nodup ∧ (db.categories.map Category.slug).Nodup ∧
  (db.locations.map Location.id).Nodup ∧ (db.posts.map Post.id).Nodup ∧
  (db.comments.map Comment.id).Nodup

instance (db : DB) : Decidable db.wf := by
  unfold DB.wf; infer_instance

/-- Referential integrity of comments: every comment's `post` foreign
key resolves to an existing post. -/
def consistent (db : DB) : Prop :=
  ∀ c ∈ db.comments, ∃ p ∈ db.posts, p.id = c.post

instance (db : DB) : Decidable (consistent db) := by
  unfold consistent; infer_instance

/-- When the mapped keys of a list are pairwise distinct, `find?` on key
equality recovers exactly the member carrying that key. -/
theorem find?_key_eq_of_nodup {α κ : Type} [DecidableEq κ] (key : α → κ) :
    ∀ (l : List α), (l.map key).Nodup → ∀ a ∈ l,
      l.find? (fun x => key x == key a) = some a := by
  intro l
  induction l with
  | nil => intro _ a ha; cases ha
  | cons b t ih =>
    intro hnd a ha
    simp only [List.map_cons, List.nodup_cons] at hnd
    rcases List.mem_cons.mp ha with rfl | hat
    · exact List.find?_cons_of_pos t (by simp)
    · have hne : key b ≠ key a := by
        intro he
        exact hnd.1 (he ▸ List.mem_map_of_mem key hat)
      rw [List.find?_cons_of_neg t (by simpa using hne)]
      exact ih hnd.2 a hat

/-- C2: the index listing contains exactly the posts satisfying the
visibility invariant, each annotated with its comment count, is ordered
by `pub_date` descending, and is windowed into pages of 10. -/
theorem index_list_correct (db : DB) (now : Int) (p : Post) (c : Nat)
    (pg : Nat) :
    ((p, c) ∈ IndexList.get_queryset db now ↔
      p ∈ db.posts ∧ visible db now p = true ∧ c = commentCount db p)
    ∧ List.Pairwise (fun a b : Post × Nat => b.1.pub_date ≤ a.1.pub_date)
        (IndexList.get_queryset db now)
    ∧ IndexList.page db now pg =
        ((IndexList.get_queryset db now).drop ((pg - 1) * 10)).take 10 := by
  refine ⟨?_, ?_, rfl⟩
  · simp only [IndexList.get_queryset, List.mem_filter, List.mem_map,
      List.mem_insertionSort, Prod.mk.injEq]
    constructor
    · rintro ⟨⟨q, hq, rfl, rfl⟩, hvis⟩
      exact ⟨hq, hvis, rfl⟩
    · rintro ⟨hp, hvis, rfl⟩
      exact ⟨⟨p, hp, rfl, rfl⟩, hvis⟩
  · have hs : List.Pairwise pubDateDesc (List.insertionSort pubDateDesc db.posts) :=
      List.sorted_insertionSort pubDateDesc db.posts
    have hm := List.Pairwise.map (R := pubDateDesc)
      (S := fun a b : Post × Nat => b.1.pub_date ≤ a.1.pub_date)
      (fun q => (q, commentCount db q)) (fun _ _ h => h) hs
    exact List.Pairwise.filter _ hm

/-- The author of the profile used to exhibit the profile-listing leak. -/
def profileBugUser : User := { id := 1, username := "author1" }

/-- An unpublished post by `profileBugUser`. -/
def profileBugPost : Post :=
  { id := 10, title := "hidden", text := "t", pub_date := 0, author := 1,
    location := none, category := none, image := "", is_published := false,
    created_at := 0 }

/-- A database holding only `profileBugUser` and their unpublished post. -/
def profileBugDB : DB :=
  { users := [profileBugUser], categories := [], locations := [],
    posts := [profileBugPost], comments := [] }

/-- C1: the profile listing leaks an unpublished post to a non-owner.
The requester (user id 2) is not the profile owner (user id 1), the
owner's post has `is_published = false`, and still the queryset returned
to the requester contains that post: `ProfileList.get_queryset` never
applies the visibility invariant (both branches of its `if` produce the
author's unfiltered posts), contradicting the claim that non-owners see
only visibility-invariant posts. -/
theorem profile_list_leaks_unpublished_to_nonowner :
    profileBugPost.is_published = false
    ∧ profileBugPost.author = profileBugUser.id
    ∧ (2 : Nat) ≠ profileBugUser.id
    ∧ ProfileList.get_queryset profileBugDB (some 2) profileBugUser.username
        = some [(profileBugPost, 0)] :=
  ⟨rfl, rfl, by decide, rfl⟩

/-- C3: a mutation attempt by an authenticated non-author on an existing
post or comment yields a silent redirect to the detail page of the `pk`
in the URL, and the database — hence every field of the entity — is
unchanged. -/
theorem non_author_edit_delete_is_noop (db : DB) (r : User) (pk id : Nat)
    (f : PostForm) (txt : String) :
    (∀ p, findPost db pk = some p → p.author ≠ r.id →
      PostUpdate.dispatch db r pk f
          = (Response.redirect (Target.postDetail pk), db)
      ∧ PostDelete.dispatch db r pk
          = (Response.redirect (Target.postDetail pk), db))
    ∧ (∀ c, findComment db id = some c → c.author ≠ r.id →
      CommentUpdate.dispatch db r pk id txt
          = (Response.redirect (Target.postDetail pk), db)
      ∧ CommentDelete.dispatch db r pk id
          = (Response.redirect (Target.postDetail pk), db)) := by
  constructor
  · intro p hp ha
    exact ⟨by simp [PostUpdate.dispatch, hp, ha],
           by simp [PostDelete.dispatch, hp, ha]⟩
  · intro c hc ha
    exact ⟨by simp [CommentUpdate.dispatch, hc, ha],
           by simp [CommentDelete.dispatch, hc, ha]⟩

/-- The author whose entities a stranger tries to mutate. -/
def c3Author : User := { id := 1, username := "alice" }

/-- The authenticated requester who is not the author. -/
def c3Requester : User := { id := 2, username := "bob" }

/-- A post owned by `c3Author`. -/
def c3Post : Post :=
  { id := 10, title := "a", text := "b", pub_date := 0, author := 1,
    location := none, category := none, image := "", is_published := true,
    created_at := 0 }

/-- A comment owned by `c3Author` on `c3Post`. -/
def c3Comment : Comment :=
  { id := 20, text := "hi", post := 10, created_at := 0, author := 1 }

/-- The database for the non-author no-op scenario. -/
def c3DB : DB :=
  { users := [c3Author, c3Requester], categories := [], locations := [],
    posts := [c3Post], comments := [c3Comment] }

/-- Form data submitted by the non-author attacker. -/
def c3Form : PostForm :=
  { title := "x", text := "y", pub_date := 5, location := none,
    category := none, image := "", is_published := true }

/-- Witness for C3 at a concrete database. -/
theorem non_author_edit_delete_is_noop_witness :
    PostUpdate.dispatch c3DB c3Requester 10 c3Form
      = (Response.redirect (Target.postDetail 10), c3DB)
    ∧ CommentDelete.dispatch c3DB c3Requester 10 20
      = (Response.redirect (Target.postDetail 10), c3DB) :=
  ⟨((non_author_edit_delete_is_noop c3DB c3Requester 10 20 c3Form ("z")).1
      c3Post (by decide) (by decide)).1,
   ((non_author_edit_delete_is_noop c3DB c3Requester 10 20 c3Form ("z")).2
      c3Comment (by decide) (by decide)).2⟩

/-- C7: post creation by authenticated user `u` stores a post whose
`author` is `u` regardless of the submitted form data, and redirects to
`u`'s own profile. -/
theorem post_create_forces_author (db : DB) (u : User) (f : PostForm)
    (newId : Nat) (now : Int) :
    ∃ p, PostCreate.form_valid db u f newId now
        = (Response.redirect (Target.profile u.username),
           { db with posts := db.posts ++ [p] })
      ∧ p.author = u.id :=
  ⟨_, rfl, rfl⟩

/-- C4: the declared deletion policies.  Deleting a location (resp.
category) keeps every post, nulling the reference on exactly the posts
that held it; deleting a post removes every comment on it and no other;
deleting a user removes every post and comment they authored; and each
deletion preserves referential integrity of comments, so no comment
outlives its parent post. -/
theorem deletion_policies (db : DB) (lid cid pid uid : Nat) :
    ((deleteLocation db lid).posts.length = db.posts.length
      ∧ ∀ p ∈ db.posts,
          (p.location = some lid →
            { p with location := none } ∈ (deleteLocation db lid).posts)
          ∧ (p.location ≠ some lid → p ∈ (deleteLocation db lid).posts))
    ∧ ((deleteCategory db cid).posts.length = db.posts.length
      ∧ ∀ p ∈ db.posts,
          (p.category = some cid →
            { p with category := none } ∈ (deleteCategory db cid).posts)
          ∧ (p.category ≠ some cid → p ∈ (deleteCategory db cid).posts))
    ∧ (∀ c ∈ (deletePost db pid).comments, c.post ≠ pid)
    ∧ (∀ c ∈ db.comments, c.post ≠ pid → c ∈ (deletePost db pid).comments)
    ∧ (∀ p ∈ (deleteUser db uid).posts, p.author ≠ uid)
    ∧ (∀ c ∈ (deleteUser db uid).comments, c.author ≠ uid)
    ∧ (consistent db →
        consistent (deleteLocation db lid) ∧ consistent (deleteCategory db cid)
        ∧ consistent (deletePost db pid) ∧ consistent (deleteUser db uid)) := by
  refine ⟨⟨by simp [deleteLocation], ?_⟩, ⟨by simp [deleteCategory], ?_⟩,
    ?_, ?_, ?_, ?_, ?_⟩
  · intro p hp
    refine ⟨fun hl => ?_, fun hl => ?_⟩
    · simp only [deleteLocation, List.mem_map]
      exact ⟨p, hp, by simp [hl]⟩
    · simp only [deleteLocation, List.mem_map]
      exact ⟨p, hp, by simp [hl]⟩
  · intro p hp
    refine ⟨fun hl => ?_, fun hl => ?_⟩
    · simp only [deleteCategory, List.mem_map]
      exact ⟨p, hp, by simp [hl]⟩
    · simp only [deleteCategory, List.mem_map]
      exact ⟨p, hp, by simp [hl]⟩
  · intro c hc
    simp only [deletePost, List.mem_filter, bne_iff_ne, ne_eq] at hc
    exact hc.2
  · intro c hc hne
    simp only [deletePost, List.mem_filter, bne_iff_ne, ne_eq]
    exact ⟨hc, hne⟩
  · intro p hp
    simp only [deleteUser, List.mem_filter, bne_iff_ne, ne_eq] at hp
    exact hp.2
  · intro c hc
    simp only [deleteUser, List.mem_filter, Bool.and_eq_true, bne_iff_ne,
      ne_eq] at hc
    exact hc.2.1
  · intro hcons
    refine ⟨?_, ?_, ?_, ?_⟩
    · intro c hc
      obtain ⟨p, hp, hid⟩ := hcons c hc
      refine ⟨if p.location == some lid then { p with location := none } else p,
        ?_, ?_⟩
      · exact List.mem_map_of_mem _ hp
      · split <;> exact hid
    · intro c hc
      obtain ⟨p, hp, hid⟩ := hcons c hc
      refine ⟨if p.category == some cid then { p with category := none } else p,
        ?_, ?_⟩
      · exact List.mem_map_of_mem _ hp
      · split <;> exact hid
    · intro c hc
      simp only [deletePost, List.mem_filter, bne_iff_ne, ne_eq] at hc
      obtain ⟨p, hp, hid⟩ := hcons c hc.1
      refine ⟨p, ?_, hid⟩
      simp only [deletePost, List.mem_filter, bne_iff_ne, ne_eq]
      exact ⟨hp, by rw [hid]; exact hc.2⟩
    · intro c hc
      simp only [deleteUser, List.mem_filter, Bool.and_eq_true, bne_iff_ne,
        ne_eq, Bool.not_eq_true', List.any_eq_false] at hc
      obtain ⟨hcm, _, hnoany⟩ := hc
      obtain ⟨p, hp, hid⟩ := hcons c hcm
      have hpa : p.author ≠ uid := by
        intro he
        exact hnoany p hp (by simp [hid, he])
      refine ⟨p, ?_, hid⟩
      simp only [deleteUser, List.mem_filter, bne_iff_ne, ne_eq]
      exact ⟨hp, hpa⟩

/-- A user authoring the first sample post. -/
def c4User1 : User := { id := 1, username := "ann" }

/-- A second user, to be deleted in the witness. -/
def c4User2 : User := { id := 2, username := "ben" }

/-- A location referenced by the first sample post. -/
def c4Loc : Location := { id := 3, name := "here", is_published := true, created_at := 0 }

/-- A category referenced by the first sample post. -/
def c4Cat : Category :=
  { id := 4, title := "c", description := "d", slug := "news",
    is_published := true, created_at := 0 }

/-- A post referencing `c4Loc` and `c4Cat`. -/
def c4Post1 : Post :=
  { id := 1, title := "p1", text := "", pub_date := 0, author := 1,
    location := some 3, category := some 4, image := "",
    is_published := true, created_at := 0 }

/-- A post authored by `c4User2`. -/
def c4Post2 : Post :=
  { id := 2, title := "p2", text := "", pub_date := 0, author := 2,
    location := none, category := none, image := "",
    is_published := true, created_at := 0 }

/-- A comment by `c4User2` on the first post. -/
def c4Comment1 : Comment :=
  { id := 1, text := "x", post := 1, created_at := 0, author := 2 }

/-- A comment by `c4User1` on the second post. -/
def c4Comment2 : Comment :=
  { id := 2, text := "y", post := 2, created_at := 1, author := 1 }

/-- The database for the deletion-policy witness. -/
def c4DB : DB :=
  { users := [c4User1, c4User2], categories := [c4Cat], locations := [c4Loc],
    posts := [c4Post1, c4Post2], comments := [c4Comment1, c4Comment2] }

/-- Witness for C4 at a concrete database. -/
theorem deletion_policies_witness :
    ({ c4Post1 with location := none } ∈ (deleteLocation c4DB 3).posts)
    ∧ (∀ c ∈ (deletePost c4DB 1).comments, c.post ≠ 1)
    ∧ (∀ c ∈ (deleteUser c4DB 2).comments, c.author ≠ 2)
    ∧ consistent (deleteUser c4DB 2) :=
  ⟨((deletion_policies c4DB 3 4 1 2).1.2 c4Post1 (by decide)).1 (by decide),
   (deletion_policies c4DB 3 4 1 2).2.2.1,
   (deletion_policies c4DB 3 4 1 2).2.2.2.2.2.1,
   ((deletion_policies c4DB 3 4 1 2).2.2.2.2.2.2 (by decide)).2.2.2⟩

/-- C5: the category listing 404s exactly when no published category
carries the requested slug; otherwise it returns exactly the posts of
that category satisfying the visibility invariant, windowed into pages
of 10. -/
theorem category_list_correct (db : DB) (now : Int) (slug : String) (pg : Nat)
    (hwf : db.wf) :
    (CategoryList.get_queryset db now slug = none ↔
      ∀ cat ∈ db.categories, ¬(cat.slug = slug ∧ cat.is_published = true))
    ∧ ∀ cat ∈ db.categories, cat.slug = slug → cat.is_published = true →
        ∃ l, CategoryList.get_queryset db now slug = some l
          ∧ (∀ p, p ∈ l ↔
              p ∈ db.posts ∧ p.category = some cat.id ∧ visible db now p = true)
          ∧ CategoryList.page db now slug pg = some (paginate 10 l pg) := by
  constructor
  · rcases h : db.categories.find? (fun c => c.slug == slug && c.is_published)
      with _ | cat
    · simp only [CategoryList.get_queryset, h]
      rw [List.find?_eq_none] at h
      constructor
      · intro _ cat hcat hconj
        exact (h cat hcat) (by simp [hconj.1, hconj.2])
      · intro _; trivial
    · simp only [CategoryList.get_queryset, h]
      constructor
      · intro hco; cases hco
      · intro hall
        have hmem := List.mem_of_find?_eq_some h
        have hpred := List.find?_some h
        simp only [Bool.and_eq_true, beq_iff_eq] at hpred
        exact absurd ⟨hpred.1, hpred.2⟩ (hall cat hmem)
  · intro cat hcat hslug hpub
    obtain ⟨-, -, hcid, hcslug, -, -, -⟩ := hwf
    rcases h : db.categories.find? (fun c => c.slug == slug && c.is_published)
      with _ | cat'
    · rw [List.find?_eq_none] at h
      exact absurd (by simp [hslug, hpub]) (h cat hcat)
    · have hmem' := List.mem_of_find?_eq_some h
      have hpred := List.find?_some h
      simp only [Bool.and_eq_true, beq_iff_eq] at hpred
      have heq : cat' = cat :=
        List.inj_on_of_nodup_map hcslug hmem' hcat (by rw [hpred.1, hslug])
      subst heq
      have hfind : findCategory db cat'.id = some cat' := by
        have := find?_key_eq_of_nodup Category.id db.categories hcid cat' hcat
        simpa [findCategory] using this
      refine ⟨(db.posts.filter (fun p => p.category == some cat'.id)).filter
          (fun p => p.is_published && decide (p.pub_date ≤ now)), ?_, ?_, ?_⟩
      · simp only [CategoryList.get_queryset, h]
      · intro p
        simp only [List.mem_filter, Bool.and_eq_true, beq_iff_eq,
          decide_eq_true_eq]
        constructor
        · rintro ⟨⟨hp, hcatp⟩, hpub', hdate⟩
          refine ⟨hp, hcatp, ?_⟩
          simp [visible, categoryIsPublished, hcatp, hfind, hpub, hpub', hdate]
        · rintro ⟨hp, hcatp, hvis⟩
          simp only [visible, Bool.and_eq_true, decide_eq_true_eq] at hvis
          exact ⟨⟨hp, hcatp⟩, hvis.1.1, hvis.2⟩
      · simp only [CategoryList.page, CategoryList.get_queryset, h, Option.map]

/-- A published category for the category-list witness. -/
def c5Cat : Category :=
  { id := 4, title := "News", description := "", slug := "news",
    is_published := true, created_at := 0 }

/-- A visible post in `c5Cat`. -/
def c5Post : Post :=
  { id := 7, title := "v", text := "", pub_date := 50, author := 1,
    location := none, category := some 4, image := "",
    is_published := true, created_at := 0 }

/-- The author of `c5Post`. -/
def c5User : User := { id := 1, username := "eve" }

/-- The database for the category-list witness. -/
def c5DB : DB :=
  { users := [c5User], categories := [c5Cat], locations := [],
    posts := [c5Post], comments := [] }

/-- Witness for C5 at a concrete database. -/
theorem category_list_correct_witness :
    CategoryList.get_queryset c5DB 100 ("gone") = none
    ∧ ∃ l, CategoryList.get_queryset c5DB 100 ("news") = some l
        ∧ (∀ p, p ∈ l ↔
            p ∈ c5DB.posts ∧ p.category = some c5Cat.id
              ∧ visible c5DB 100 p = true) :=
  ⟨(category_list_correct c5DB 100 ("gone") 1 (by decide)).1.mpr (by decide),
   by
    obtain ⟨l, h1, h2, -⟩ :=
      (category_list_correct c5DB 100 ("news") 1 (by decide)).2 c5Cat
        (by decide) rfl rfl
    exact ⟨l, h1, h2⟩⟩

/-- C6: the comments shown on a post's detail page are the post's
comments in `created_at`-ascending order, regardless of insertion
order; in particular two comments with strictly increasing timestamps
always render as `[c1, c2]` whichever way they were inserted. -/
theorem comment_order_correct (db : DB) (pk : Nat) (c1 c2 : Comment) :
    List.Pairwise (fun a b : Comment => a.created_at ≤ b.created_at)
      (PostDetail.comments db pk)
    ∧ List.Perm (PostDetail.comments db pk)
        (db.comments.filter (fun c => c.post == pk))
    ∧ (c1.post = pk → c2.post = pk → c1.created_at < c2.created_at →
        PostDetail.comments { db with comments := [c1, c2] } pk = [c1, c2]
        ∧ PostDetail.comments { db with comments := [c2, c1] } pk = [c1, c2]) := by
  refine ⟨?_, List.perm_insertionSort createdAtAsc _, ?_⟩
  · have := List.sorted_insertionSort createdAtAsc
      (db.comments.filter (fun c => c.post == pk))
    simpa [List.Sorted, createdAtAsc, PostDetail.comments] using this
  · intro h1 h2 hlt
    constructor
    · simp [PostDetail.comments, h1, h2, createdAtAsc, le_of_lt hlt]
    · simp [PostDetail.comments, h1, h2, createdAtAsc, not_le.mpr hlt]

/-- The earlier comment of the ordering witness. -/
def c6Comment1 : Comment :=
  { id := 1, text := "first", post := 5, created_at := 10, author := 1 }

/-- The later comment of the ordering witness. -/
def c6Comment2 : Comment :=
  { id := 2, text := "second", post := 5, created_at := 20, author := 1 }

/-- A database where the later comment was inserted first. -/
def c6DB : DB :=
  { users := [], categories := [], locations := [], posts := [],
    comments := [c6Comment2, c6Comment1] }

/-- Witness for C6 at a concrete database. -/
theorem comment_order_correct_witness :
    PostDetail.comments { c6DB with comments := [c6Comment2, c6Comment1] } 5
      = [c6Comment1, c6Comment2] :=
  ((comment_order_correct c6DB 5 c6Comment1 c6Comment2).2.2 rfl rfl
    (by decide)).2

/-- C8: the post-detail view applies no visibility filtering — any
existing post resolves by primary key whatever its `is_published`,
category or `pub_date`, and the view 404s exactly when no post has the
requested id. -/
theorem post_detail_no_visibility_filter (db : DB) (pk : Nat) (p : Post)
    (hwf : db.wf) :
    (p ∈ db.posts → p.id = pk → PostDetail.get_object db pk = some p)
    ∧ (PostDetail.get_object db pk = none ↔ ∀ q ∈ db.posts, q.id ≠ pk) := by
  obtain ⟨-, -, -, -, -, hpid, -⟩ := hwf
  constructor
  · intro hp hid
    have := find?_key_eq_of_nodup Post.id db.posts hpid p hp
    subst hid
    simpa [PostDetail.get_object, findPost] using this
  · simp [PostDetail.get_object, findPost, List.find?_eq_none]

/-- An unpublished, future-dated, category-less post. -/
def c8Post : Post :=
  { id := 10, title := "future", text := "", pub_date := 1000, author := 1,
    location := none, category := none, image := "", is_published := false,
    created_at := 0 }

/-- The database for the post-detail witness. -/
def c8DB : DB :=
  { users := [], categories := [], locations := [], posts := [c8Post],
    comments := [] }

/-- Witness for C8: the invisible post is still served by its detail view. -/
theorem post_detail_no_visibility_filter_witness :
    PostDetail.get_object c8DB 10 = some c8Post
    ∧ c8Post.is_published = false :=
  ⟨(post_detail_no_visibility_filter c8DB 10 c8Post (by decide)).1
      (by decide) rfl, rfl⟩

/-- C9: comment edit and delete resolve their target by the comment id
alone: with an author-matching comment `c` and any existing post at the
URL's `pk` — even one that is not `c`'s post — the edit rewrites `c`'s
text and the delete removes exactly `c`. -/
theorem comment_ops_resolve_by_id_only (db : DB) (r : User) (pk cid : Nat)
    (c : Comment) (pst : Post) (txt : String)
    (hc : findComment db cid = some c) (hca : c.author = r.id)
    (hp : findPost db pk = some pst) (_hne : c.post ≠ pk) :
    ({ c with text := txt } ∈ (CommentUpdate.dispatch db r pk cid txt).2.comments
      ∧ (CommentUpdate.dispatch db r pk cid txt).1
          = Response.redirect (Target.postDetail pst.id))
    ∧ ((∀ cc ∈ (CommentDelete.dispatch db r pk cid).2.comments, cc.id ≠ cid)
      ∧ (∀ cc ∈ db.comments, cc.id ≠ cid →
          cc ∈ (CommentDelete.dispatch db r pk cid).2.comments)
      ∧ (CommentDelete.dispatch db r pk cid).1
          = Response.redirect (Target.postDetail c.post)) := by
  have hcid : c.id = cid := by
    have := List.find?_some hc
    simpa using this
  have hcm : c ∈ db.comments := List.mem_of_find?_eq_some hc
  have hU : CommentUpdate.dispatch db r pk cid txt
      = (Response.redirect (Target.postDetail pst.id),
         { db with comments := (db.comments.map
            (fun cc => if cc.id == cid then { cc with text := txt } else cc)) }) := by
    simp [CommentUpdate.dispatch, hc, hca, hp]
  have hD : CommentDelete.dispatch db r pk cid
      = (Response.redirect (Target.postDetail c.post),
         { db with comments := db.comments.filter (fun cc => cc.id != cid) }) := by
    simp [CommentDelete.dispatch, hc, hca, hp]
  refine ⟨⟨?_, by rw [hU]⟩, ?_, ?_, by rw [hD]⟩
  · rw [hU]
    exact List.mem_map.mpr ⟨c, hcm, by simp [hcid]⟩
  · intro cc hcc
    rw [hD] at hcc
    simp only [List.mem_filter, bne_iff_ne, ne_eq] at hcc
    exact hcc.2
  · intro cc hcc hne'
    rw [hD]
    simp only [List.mem_filter, bne_iff_ne, ne_eq]
    exact ⟨hcc, hne'⟩

/-- The author-requester of the cross-post comment scenario. -/
def c9User : User := { id := 1, username := "carol" }

/-- The post the comment actually belongs to. -/
def c9PostA : Post :=
  { id := 1, title := "a", text := "", pub_date := 0, author := 1,
    location := none, category := none, image := "", is_published := true,
    created_at := 0 }

/-- An unrelated post whose id is put in the URL. -/
def c9PostB : Post :=
  { id := 2, title := "b", text := "", pub_date := 0, author := 1,
    location := none, category := none, image := "", is_published := true,
    created_at := 0 }

/-- The comment targeted through the mismatched URL. -/
def c9Comment : Comment :=
  { id := 20, text := "orig", post := 1, created_at := 0, author := 1 }

/-- The database for the cross-post comment witness. -/
def c9DB : DB :=
  { users := [c9User], categories := [], locations := [],
    posts := [c9PostA, c9PostB], comments := [c9Comment] }

/-- Witness for C9: URL names post 2, yet comment 20 (on post 1) is
mutated and deleted. -/
theorem comment_ops_resolve_by_id_only_witness :
    { c9Comment with text := ("new") }
      ∈ (CommentUpdate.dispatch c9DB c9User 2 20 ("new")).2.comments
    ∧ ∀ cc ∈ (CommentDelete.dispatch c9DB c9User 2 20).2.comments, cc.id ≠ 20 :=
  ⟨((comment_ops_resolve_by_id_only c9DB c9User 2 20 c9Comment c9PostB ("new")
      (by decide) rfl (by decide) (by decide)).1).1,
   ((comment_ops_resolve_by_id_only c9DB c9User 2 20 c9Comment c9PostB ("new")
      (by decide) rfl (by decide) (by decide)).2).1⟩

/-- C10: the authorship check runs before the URL's post id is resolved:
a non-author is redirected to the detail route of the URL's `pk` and the
database is untouched, even when no post with that `pk` exists. -/
theorem comment_author_check_precedes_post_lookup (db : DB) (r : User)
    (pk cid : Nat) (c : Comment) (txt : String)
    (hc : findComment db cid = some c) (hca : c.author ≠ r.id)
    (_hp : findPost db pk = none) :
    CommentUpdate.dispatch db r pk cid txt
      = (Response.redirect (Target.postDetail pk), db)
    ∧ CommentDelete.dispatch db r pk cid
      = (Response.redirect (Target.postDetail pk), db) :=
  ⟨by simp [CommentUpdate.dispatch, hc, hca],
   by simp [CommentDelete.dispatch, hc, hca]⟩

/-- The non-author requester of the dangling-post scenario. -/
def c10Requester : User := { id := 2, username := "dan" }

/-- A comment authored by user 1, not by the requester. -/
def c10Comment : Comment :=
  { id := 20, text := "t", post := 1, created_at := 0, author := 1 }

/-- A database with the comment but no post at id 99. -/
def c10DB : DB :=
  { users := [c10Requester], categories := [], locations := [], posts := [],
    comments := [c10Comment] }

/-- Witness for C10: pk 99 resolves to no post, yet the response is the
redirect, not a 404. -/
theorem comment_author_check_precedes_post_lookup_witness :
    CommentUpdate.dispatch c10DB c10Requester 99 20 ("w")
      = (Response.redirect (Target.postDetail 99), c10DB) :=
  (comment_author_check_precedes_post_lookup c10DB c10Requester 99 20
    c10Comment ("w") (by decide) (by decide) (by decide)).1
end Blogicum
